import Mathlib

/-!
Verification of the vSphere cluster reconciler (package `reconciler`,
file embedded from `Reconciler.Reconcile`, `Reconciler.ValidateDatacenterConfig`,
`Reconciler.ValidateMachineConfigs`, `Reconciler.ReconcileControlPlane`,
`Reconciler.ReconcileCNI`, `Reconciler.ReconcileWorkers`, `VsphereCredentials`
and `SetupEnvVars`).

External collaborators behind interfaces (spec builder, validator, CNI
reconciler, remote client registry, the object-store client and `os.Setenv`)
are embedded as oracle functions carried by the `Reconciler` record; the
process environment, the declarative object store and the log of external
invocations are threaded through every phase as explicit state (`PassState`).

The generic phase runner (`controller.NewPhaseRunner` / `Run`) and the
server-side object applier (`serverside.ObjectApplier.Apply`) are not part of
the sources given here; they are modelled from the specification and marked
as such in their doc comments.
-/

namespace EksaVSphere

/-- A Go `error` value, exposing its `Error()` message. -/
structure GoError where
  message : String
deriving DecidableEq

/-- Modelled from the spec: missing type `controller.Result`.  The spec calls
the phase outcome a tri-state signal: *continue*, *stop-clean*, or a non-nil
error with a zero Result.  The Result value itself therefore carries one flag
distinguishing stop-clean from continue; the zero value (`controller.Result{}`,
all fields at their Go zero value) is the continue signal, since the runner
must proceed past phases that return it (the spec's happy-path scenario runs
all five phases, each of which returns the zero Result). -/
structure Result where
  stopClean : Bool
deriving DecidableEq

/-- The Go zero value `controller.Result{}`. -/
def Result.zero : Result := ⟨false⟩

/-- `client.ObjectKey`: namespace + name of a stored object. -/
structure ObjectKey where
  ns : String
  name : String
deriving DecidableEq

/-- A core-v1 Secret: its `Data` map, field name to contents. -/
structure Secret where
  data : List (String × String)
deriving DecidableEq

/-- Go map lookup `secret.Data[k]`: the zero value (empty string) when the
field is absent. -/
def Secret.field (s : Secret) (k : String) : String :=
  match s.data.lookup k with
  | some v => v
  | none => ""

/-- `VSphereDatacenterConfig.Status`: validity flag and optional failure
message recorded by an out-of-band validation. -/
structure VSphereDatacenterStatus where
  specValid : Bool
  failureMessage : Option String
deriving DecidableEq

/-- `anywherev1.VSphereDatacenterConfig` (only the part the reconciler reads). -/
structure VSphereDatacenterConfig where
  status : VSphereDatacenterStatus
deriving DecidableEq

/-- `anywherev1.Cluster.Status` (only the part the reconciler writes). -/
structure ClusterStatus where
  failureMessage : Option String
deriving DecidableEq

/-- `anywherev1.Cluster`: name plus mutable status. -/
structure Cluster where
  name : String
  status : ClusterStatus
deriving DecidableEq

/-- `c.Spec`: the cluster-spec snapshot a pass runs over. -/
structure CSpec where
  cluster : Cluster
  vsphereDatacenter : VSphereDatacenterConfig
deriving DecidableEq

/-- The Go assignment `clusterSpec.Cluster.Status.FailureMessage = m`. -/
def setFailureMessage (s : CSpec) (m : Option String) : CSpec :=
  { s with cluster := { s.cluster with status := { s.cluster.status with failureMessage := m } } }

/-- A desired-state object (`kubernetes.Object`): identity key plus content. -/
structure KubeObject where
  key : String
  content : String
deriving DecidableEq

/-- The declarative object store, keyed by object identity. -/
abbrev Store := List (String × KubeObject)

/-- Store lookup by key. -/
def storeLookup : Store → String → Option KubeObject
  | [], _ => none
  | (k, o) :: st, key => if k = key then some o else storeLookup st key

/-- Store write: update the entry under `o.key`, or append it. -/
def storeInsert (o : KubeObject) : Store → Store
  | [] => [(o.key, o)]
  | (k, o') :: st => if k = o.key then (o.key, o) :: st else (k, o') :: storeInsert o st

/-- Process environment write (`os.Setenv`). -/
def envSet (k v : String) : List (String × String) → List (String × String)
  | [] => [(k, v)]
  | (k', v') :: env => if k' = k then (k, v) :: env else (k', v') :: envSet k v env

/-- Process environment read. -/
def envGet (k : String) : List (String × String) → Option String
  | [] => none
  | (k', v) :: env => if k' = k then some v else envGet k env

/-- One external invocation made during a pass (instrumentation of calls to
collaborators, the store, and the process environment). -/
inductive ExtCall where
  | getSecret (key : ObjectKey)
  | setenv (name value : String)
  | vsphereSetup
  | validateCall
  | getClient (key : ObjectKey)
  | cniCall
  | producerCall
  | applyAttempt (key : String)
  | storeWrite (key : String)
deriving DecidableEq

/-- The mutable world a pass threads through its phases: the cluster-spec
snapshot (mutated through a pointer in the source), the process environment,
the local object store, and the log of external invocations. -/
structure PassState where
  spec : CSpec
  env : List (String × String)
  store : Store
  calls : List ExtCall
deriving DecidableEq

/-- Append one external invocation to the log. -/
def logCall (w : PassState) (c : ExtCall) : PassState :=
  { w with calls := w.calls ++ [c] }

/-- A remote client handle obtained from the Remote Client Registry. -/
structure Client where
  id : String
deriving DecidableEq

/-- The reconciler with its collaborators, embedded as oracles: the
object-store client's `Get` for secrets, `os.Setenv`, the vsphere package's
`SetupEnvVars`, `validator.ValidateClusterMachineConfigs`,
`remoteClientRegistry.GetClient`, `cniReconciler.Reconcile`, the workers
producer (`vsphere.WorkersSpec` + `WorkerObjects`), and the per-object
store-write outcome used by the applier. -/
structure Reconciler where
  getSecretResult : ObjectKey → Except GoError Secret
  setenvResult : String → String → Option GoError
  vsphereSetupResult : VSphereDatacenterConfig → Option GoError
  validatorResult : CSpec → Option GoError
  getClientResult : ObjectKey → Except GoError Client
  cniResult : Client → CSpec → Result × Option GoError
  workersProducer : CSpec → Except GoError (List KubeObject)
  writeFails : KubeObject → Option GoError

/-- `vsphere.CredentialsObjectName`: the fixed name of the credentials secret. -/
def CredentialsObjectName : String := "vsphere-credentials"

/-- `config.EksavSphereUsernameKey`. -/
def EksavSphereUsernameKey : String := "EKSA_VSPHERE_USERNAME"

/-- `config.EksavSpherePasswordKey`. -/
def EksavSpherePasswordKey : String := "EKSA_VSPHERE_PASSWORD"

/-- The deterministic key of the credentials secret: name
`CredentialsObjectName` in the `eksa-system` namespace. -/
def credentialsSecretKey : ObjectKey := ⟨"eksa-system", CredentialsObjectName⟩

/-- `VsphereCredentials`: fetch the secret under `credentialsSecretKey` from
the local store. -/
def vsphereCredentials (r : Reconciler) (w : PassState) :
    Except GoError Secret × PassState :=
  (r.getSecretResult credentialsSecretKey, logCall w (.getSecret credentialsSecretKey))

/-- One `os.Setenv` call: on success the process environment gains the
binding; on failure it is untouched. -/
def setenvOp (r : Reconciler) (k v : String) (w : PassState) :
    Option GoError × PassState :=
  let w' := logCall w (.setenv k v)
  match r.setenvResult k v with
  | some e => (some e, w')
  | none => (none, { w' with env := envSet k v w'.env })

/-- `SetupEnvVars`: fetch the vsphere credentials secret, copy its `username`
and `password` fields into the process environment under the fixed keys, then
run the provider package's own env setup; the first failure aborts with a
wrapped error. -/
def setupEnvVars (r : Reconciler) (dc : VSphereDatacenterConfig) (w : PassState) :
    Option GoError × PassState :=
  match vsphereCredentials r w with
  | (.error e, w₁) =>
    (some ⟨"failed getting vsphere credentials secret: " ++ e.message⟩, w₁)
  | (.ok secret, w₁) =>
    let vsphereUsername := secret.field "username"
    let vspherePassword := secret.field "password"
    match setenvOp r EksavSphereUsernameKey vsphereUsername w₁ with
    | (some e, w₂) =>
      (some ⟨"failed setting env " ++ EksavSphereUsernameKey ++ ": " ++ e.message⟩, w₂)
    | (none, w₂) =>
      match setenvOp r EksavSpherePasswordKey vspherePassword w₂ with
      | (some e, w₃) =>
        (some ⟨"failed setting env " ++ EksavSpherePasswordKey ++ ": " ++ e.message⟩, w₃)
      | (none, w₃) =>
        let w₄ := logCall w₃ .vsphereSetup
        match r.vsphereSetupResult dc with
        | some e => (some ⟨"failed setting env vars: " ++ e.message⟩, w₄)
        | none => (none, w₄)

/-- `Reconciler.ValidateDatacenterConfig`: when the datacenter status says the
spec is invalid, copy the stored failure message (the empty string when the
stored message is nil) onto the cluster status; both branches return
`(controller.Result{}, nil)`. -/
def validateDatacenterConfig (_r : Reconciler) (w : PassState) :
    (Result × Option GoError) × PassState :=
  let dataCenterConfig := w.spec.vsphereDatacenter
  if dataCenterConfig.status.specValid = false then
    let failureMessage : String :=
      match dataCenterConfig.status.failureMessage with
      | some m => m
      | none => ""
    ((Result.zero, none), { w with spec := setFailureMessage w.spec (some failureMessage) })
  else
    ((Result.zero, none), w)

/-- `Reconciler.ValidateMachineConfigs`: set up the env vars for govc; on
setup failure return the error.  Then run the live validator; on validator
failure copy `err.Error()` onto the cluster status and return the error. -/
def validateMachineConfigs (r : Reconciler) (w : PassState) :
    (Result × Option GoError) × PassState :=
  match setupEnvVars r w.spec.vsphereDatacenter w with
  | (some e, w₁) => ((Result.zero, some e), w₁)
  | (none, w₁) =>
    let w₂ := logCall w₁ .validateCall
    match r.validatorResult w₂.spec with
    | some e =>
      ((Result.zero, some e), { w₂ with spec := setFailureMessage w₂.spec (some e.message) })
    | none => ((Result.zero, none), w₂)

/-- `Reconciler.ReconcileControlPlane`: a logging no-op. -/
def reconcileControlPlane (_r : Reconciler) (w : PassState) :
    (Result × Option GoError) × PassState :=
  ((Result.zero, none), w)

/-- Modelled from the spec: missing function `controller.CapiClusterObjectKey` —
the workload cluster's identity key used to resolve its remote client. -/
def capiClusterObjectKey (c : Cluster) : ObjectKey :=
  ⟨"eksa-system", c.name⟩

/-- `Reconciler.ReconcileCNI`: resolve a client for the workload cluster via
the remote client registry; on failure return that error; on success delegate
to the CNI reconciler with the resolved client and the spec, propagating its
Result and error unchanged. -/
def reconcileCNI (r : Reconciler) (w : PassState) :
    (Result × Option GoError) × PassState :=
  let key := capiClusterObjectKey w.spec.cluster
  let w₁ := logCall w (.getClient key)
  match r.getClientResult key with
  | .error e => ((Result.zero, some e), w₁)
  | .ok cl => (r.cniResult cl w.spec, logCall w₁ .cniCall)

/-- Modelled from the spec: one create-or-update attempt of the missing
`serverside.ObjectApplier` — when the stored object already equals the desired
one the attempt is a no-op (no store write); otherwise a store write is issued,
which either fails or lands the desired object in the store. -/
def createOrUpdate (r : Reconciler) (o : KubeObject) (w : PassState) :
    Option GoError × PassState :=
  let w₁ := logCall w (.applyAttempt o.key)
  if storeLookup w₁.store o.key = some o then
    (none, w₁)
  else
    let w₂ := logCall w₁ (.storeWrite o.key)
    match r.writeFails o with
    | some e => (some e, w₂)
    | none => (none, { w₂ with store := storeInsert o w₂.store })

/-- Modelled from the spec: the applier attempts every object of the desired
set regardless of individual failures, collecting the failures in order. -/
def applyAll (r : Reconciler) : List KubeObject → PassState → List GoError × PassState
  | [], w => ([], w)
  | o :: os, w =>
    match createOrUpdate r o w with
    | (some e, w₁) =>
      let rest := applyAll r os w₁
      (e :: rest.1, rest.2)
    | (none, w₁) => applyAll r os w₁

/-- Modelled from the spec: the collected per-object failures combined into
one descriptive error. -/
def aggregateApplyError (es : List GoError) : GoError :=
  ⟨"applying objects: " ++ String.intercalate "; " (es.map GoError.message)⟩

/-- Modelled from the spec: missing method `serverside.ObjectApplier.Apply` —
invoke the producer to compute the desired object set (recomputed each call);
on producer failure return that error; otherwise attempt every object and,
only after all attempts complete, return the aggregated error when any attempt
failed. -/
def applyProducer (r : Reconciler) (producer : Except GoError (List KubeObject))
    (w : PassState) : (Result × Option GoError) × PassState :=
  let w₁ := logCall w .producerCall
  match producer with
  | .error e => ((Result.zero, some e), w₁)
  | .ok objs =>
    let out := applyAll r objs w₁
    if out.1 = [] then ((Result.zero, none), out.2)
    else ((Result.zero, some (aggregateApplyError out.1)), out.2)

/-- `Reconciler.ReconcileWorkers`: apply the worker object set computed by the
provider-specific producer from the cluster spec. -/
def reconcileWorkers (r : Reconciler) (w : PassState) :
    (Result × Option GoError) × PassState :=
  applyProducer r (r.workersProducer w.spec) w

/-- A phase registered on the phase runner, with its name kept for the
invocation trace. -/
structure NamedPhase where
  name : String
  run : PassState → (Result × Option GoError) × PassState

/-- The outcome of one pass: the returned Result and error, the final world
state, and the trace of phases that were invoked, in invocation order. -/
structure RunOutcome where
  res : Result
  err : Option GoError
  state : PassState
  trace : List String
deriving DecidableEq

/-- Modelled from the spec: missing `controller.PhaseRunner.Run` — invoke the
registered phases in order; a phase error returns `(zero-Result, error)`
immediately; a stop-clean Result returns `(Result, nil)` immediately;
otherwise continue, and after the last phase return its Result and nil. -/
def runPhases : List NamedPhase → PassState → RunOutcome
  | [], w => ⟨Result.zero, none, w, []⟩
  | p :: ps, w =>
    match p.run w with
    | ((_, some e), w₁) => ⟨Result.zero, some e, w₁, [p.name]⟩
    | ((r, none), w₁) =>
      if r.stopClean then ⟨r, none, w₁, [p.name]⟩
      else
        let o := runPhases ps w₁
        ⟨o.res, o.err, o.state, p.name :: o.trace⟩

/-- The fixed phase list `Reconciler.Reconcile` registers, in registration
order. -/
def phases (r : Reconciler) : List NamedPhase :=
  [⟨"ValidateDatacenterConfig", validateDatacenterConfig r⟩,
   ⟨"ValidateMachineConfigs", validateMachineConfigs r⟩,
   ⟨"ReconcileControlPlane", reconcileControlPlane r⟩,
   ⟨"ReconcileCNI", reconcileCNI r⟩,
   ⟨"ReconcileWorkers", reconcileWorkers r⟩]

/-- The names of the five registered phases, in registration order. -/
def fiveNames : List String :=
  ["ValidateDatacenterConfig", "ValidateMachineConfigs", "ReconcileControlPlane",
   "ReconcileCNI", "ReconcileWorkers"]

/-- The outcome of `Reconciler.Reconcile`: either spec building failed before
any phase ran, or the phase runner ran. -/
inductive ReconcileOutcome where
  | buildFailed (e : GoError)
  | ran (o : RunOutcome)
deriving DecidableEq

/-- The `(controller.Result, error)` pair `Reconcile` returns. -/
def ReconcileOutcome.returned : ReconcileOutcome → Result × Option GoError
  | .buildFailed e => (Result.zero, some e)
  | .ran o => (o.res, o.err)

/-- The phases invoked during `Reconcile`, in order. -/
def ReconcileOutcome.trace : ReconcileOutcome → List String
  | .buildFailed _ => []
  | .ran o => o.trace

/-- The cluster status failure message at the end of the pass (`none` when no
pass ran because spec building failed). -/
def ReconcileOutcome.finalFailureMessage : ReconcileOutcome → Option (Option String)
  | .buildFailed _ => none
  | .ran o => some o.state.spec.cluster.status.failureMessage

/-- `Reconciler.Reconcile`: build the cluster spec (external collaborator,
its outcome passed in); on failure return `(controller.Result{}, err)` with no
phase run; on success register the five phases and run them over a fresh pass
state carrying the given process environment and local store. -/
def reconcile (r : Reconciler) (buildSpecResult : Except GoError CSpec)
    (env : List (String × String)) (store : Store) : ReconcileOutcome :=
  match buildSpecResult with
  | .error e => .buildFailed e
  | .ok clusterSpec => .ran (runPhases (phases r) ⟨clusterSpec, env, store, []⟩)

/-- Is this logged invocation a store write? -/
def ExtCall.isStoreWrite : ExtCall → Bool
  | .storeWrite _ => true
  | _ => false

/-- How many store writes a call log records. -/
def writeCount (calls : List ExtCall) : Nat :=
  (calls.filter ExtCall.isStoreWrite).length

/-- A credentials secret with both expected fields, for concrete runs. -/
def testSecret : Secret := ⟨[("username", "user1"), ("password", "pw1")]⟩

/-- A reconciler whose collaborators all succeed. -/
def okReconciler : Reconciler where
  getSecretResult := fun _ => .ok testSecret
  setenvResult := fun _ _ => none
  vsphereSetupResult := fun _ => none
  validatorResult := fun _ => none
  getClientResult := fun _ => .ok ⟨"remote"⟩
  cniResult := fun _ _ => (Result.zero, none)
  workersProducer := fun _ => .ok []
  writeFails := fun _ => none

/-- A cluster spec whose datacenter config was marked invalid, with a stored
failure message. -/
def invalidDCSpec : CSpec :=
  ⟨⟨"c0", ⟨none⟩⟩, ⟨⟨false, some "datacenter invalid"⟩⟩⟩

/-- A cluster spec whose datacenter config was marked invalid with no stored
failure message. -/
def invalidNoMsgSpec : CSpec :=
  ⟨⟨"c0", ⟨none⟩⟩, ⟨⟨false, none⟩⟩⟩

/-- A cluster spec whose datacenter config is valid. -/
def validDCSpec : CSpec :=
  ⟨⟨"c0", ⟨none⟩⟩, ⟨⟨true, none⟩⟩⟩

/-- A fresh pass state over a given cluster spec: empty environment, empty
store, empty call log. -/
def w0 (s : CSpec) : PassState := ⟨s, [], [], []⟩

/-- Desired worker objects for the applier scenarios. -/
def objA : KubeObject := ⟨"a", "A"⟩

/-- Second desired object; its store write will be made to fail. -/
def objB : KubeObject := ⟨"b", "B"⟩

/-- Third desired object, attempted after the failing one. -/
def objC : KubeObject := ⟨"c", "C"⟩

/-- The failure the store reports for `objB`. -/
def errB : GoError := ⟨"apply b failed"⟩

/-- A reconciler whose store rejects writes of `objB` only. -/
def abcReconciler : Reconciler :=
  { okReconciler with writeFails := fun o => if o.key = "b" then some errB else none }

/-- A reconciler whose remote client registry cannot reach the workload
cluster. -/
def cniFailReconciler : Reconciler :=
  { okReconciler with getClientResult := fun _ => .error ⟨"unreachable"⟩ }

/-- A reconciler whose live machine-config validator rejects the spec. -/
def valFailReconciler : Reconciler :=
  { okReconciler with validatorResult := fun _ => some ⟨"bad machine config"⟩ }

/-- A reconciler whose credentials secret cannot be fetched. -/
def secretFailReconciler : Reconciler :=
  { okReconciler with getSecretResult := fun _ => .error ⟨"no secret"⟩ }

/-- A reconciler whose provider-level env setup fails. -/
def envFailReconciler : Reconciler :=
  { okReconciler with vsphereSetupResult := fun _ => some ⟨"setup failed"⟩ }

/-- The pass state after a successful credential/env setup under
`valFailReconciler`, used in the concrete validator-failure run. -/
def valSetupState : PassState :=
  (setupEnvVars valFailReconciler validDCSpec.vsphereDatacenter (w0 validDCSpec)).2

/-- A phase that continues, for runner scenarios. -/
def contPhase : NamedPhase := ⟨"cont", fun w => ((Result.zero, none), w)⟩

/-- A phase that fails, for runner scenarios. -/
def errPhase : NamedPhase := ⟨"boom", fun w => ((Result.zero, some ⟨"boom"⟩), w)⟩

/-- When the first phase fails, the runner returns its error with a zero
Result, final state that phase's state, and invokes nothing after it. -/
theorem runPhases_cons_error (p : NamedPhase) (ps : List NamedPhase) (w : PassState)
    (e : GoError) (h : (p.run w).1.2 = some e) :
    runPhases (p :: ps) w = ⟨Result.zero, some e, (p.run w).2, [p.name]⟩ := by
  rcases hp : p.run w with ⟨⟨r, e'⟩, w₁⟩
  rw [hp] at h
  simp only at h
  subst h
  simp [runPhases, hp]

/-- A pass over `ps ++ qs` that gets through `ps` with no error and no stop
continues into `qs` from the reached state, prefixing the trace. -/
theorem runPhases_append (ps qs : List NamedPhase) (w : PassState)
    (h1 : (runPhases ps w).err = none)
    (h2 : (runPhases ps w).res.stopClean = false) :
    runPhases (ps ++ qs) w =
      ⟨(runPhases qs (runPhases ps w).state).res,
       (runPhases qs (runPhases ps w).state).err,
       (runPhases qs (runPhases ps w).state).state,
       (runPhases ps w).trace ++ (runPhases qs (runPhases ps w).state).trace⟩ := by
  induction ps generalizing w with
  | nil => simp [runPhases]
  | cons p ps ih =>
    rcases hp : p.run w with ⟨⟨⟨b⟩, e'⟩, w₁⟩
    cases e' with
    | some e => simp [runPhases, hp] at h1
    | none =>
      cases b with
      | true => simp [runPhases, hp, Result.stopClean] at h2
      | false =>
        have h1' : (runPhases ps w₁).err = none := by
          simpa [runPhases, hp] using h1
        have h2' : (runPhases ps w₁).res.stopClean = false := by
          simpa [runPhases, hp] using h2
        simp [runPhases, hp, ih w₁ h1' h2']

/-- The invocation trace is always an order-preserving prefix of the
registered phase names. -/
theorem runPhases_trace_take (ps : List NamedPhase) (w : PassState) :
    ∃ n, (runPhases ps w).trace = (ps.map NamedPhase.name).take n := by
  induction ps generalizing w with
  | nil => exact ⟨0, rfl⟩
  | cons p ps ih =>
    rcases hp : p.run w with ⟨⟨⟨b⟩, e'⟩, w₁⟩
    cases e' with
    | some e => exact ⟨1, by simp [runPhases, hp]⟩
    | none =>
      cases b with
      | true => exact ⟨1, by simp [runPhases, hp]⟩
      | false =>
        obtain ⟨n, hn⟩ := ih w₁
        exact ⟨n + 1, by simp [runPhases, hp, hn]⟩

/-- C2: for every registered phase list and every index k (the split
`ps ++ p :: qs` with `ps` completing clean), if phase `p` returns a non-nil
error then `Run` returns exactly that error with a zero Result, the final
state is the one `p` produced, and no phase of `qs` is ever invoked: the
trace ends at `p` and the whole outcome is independent of `qs`. -/
theorem run_error_short_circuits (ps qs : List NamedPhase) (p : NamedPhase)
    (w : PassState) (e : GoError)
    (h1 : (runPhases ps w).err = none)
    (h2 : (runPhases ps w).res.stopClean = false)
    (h3 : (p.run (runPhases ps w).state).1.2 = some e) :
    runPhases (ps ++ p :: qs) w =
      ⟨Result.zero, some e, (p.run (runPhases ps w).state).2,
       (runPhases ps w).trace ++ [p.name]⟩ := by
  rw [runPhases_append ps (p :: qs) w h1 h2,
      runPhases_cons_error p qs ((runPhases ps w).state) e h3]

/-- C2 witness: a three-phase pass whose middle phase fails stops there,
returning the middle phase's error. -/
theorem run_error_short_circuits_witness :
    runPhases ([contPhase] ++ errPhase :: [contPhase]) (w0 validDCSpec) =
      ⟨Result.zero, some ⟨"boom"⟩,
       (errPhase.run (runPhases [contPhase] (w0 validDCSpec)).state).2,
       (runPhases [contPhase] (w0 validDCSpec)).trace ++ [errPhase.name]⟩ :=
  run_error_short_circuits [contPhase] [contPhase] errPhase (w0 validDCSpec)
    ⟨"boom"⟩ (by decide) (by decide) (by decide)

/-- C1: evidence against the claim, evaluated at the failing input — a spec
whose datacenter config is marked invalid (stored message
"datacenter invalid") with every other collaborator succeeding.  The pass
does set the cluster status failure message to the stored message and does
return a nil error, but it does not stop: all five phases are invoked,
because `ValidateDatacenterConfig` returns the same zero (continue) Result
in its invalid branch as in its valid branch. -/
theorem invalid_datacenter_run_reaches_later_phases :
    (reconcile okReconciler (.ok invalidDCSpec) [] []).returned = (Result.zero, none) ∧
    (reconcile okReconciler (.ok invalidDCSpec) [] []).finalFailureMessage =
      some (some "datacenter invalid") ∧
    (reconcile okReconciler (.ok invalidDCSpec) [] []).trace = fiveNames := by
  decide

/-- C9: `ValidateDatacenterConfig` never returns a non-nil error, and when
the datacenter config is marked invalid with a nil stored failure message the
cluster status failure message is set to (a pointer to) the empty string,
not left nil. -/
theorem validateDatacenterConfig_never_errors (r : Reconciler) (w : PassState) :
    ((validateDatacenterConfig r w).1.2 = none) ∧
    (w.spec.vsphereDatacenter.status.specValid = false →
     w.spec.vsphereDatacenter.status.failureMessage = none →
     ((validateDatacenterConfig r w).2).spec.cluster.status.failureMessage = some "") := by
  constructor
  · by_cases h : w.spec.vsphereDatacenter.status.specValid = false <;>
      simp [validateDatacenterConfig, h]
  · intro h1 h2
    simp [validateDatacenterConfig, h1, h2, setFailureMessage]

/-- C9 witness: on a concrete invalid datacenter config carrying no stored
message, the status message becomes the empty string. -/
theorem validateDatacenterConfig_never_errors_witness :
    ((validateDatacenterConfig okReconciler (w0 invalidNoMsgSpec)).2).spec.cluster.status.failureMessage =
      some "" :=
  (validateDatacenterConfig_never_errors okReconciler (w0 invalidNoMsgSpec)).2 rfl rfl

/-- Reading back the key just written finds the written value. -/
theorem envGet_envSet_self (k v : String) (env : List (String × String)) :
    envGet k (envSet k v env) = some v := by
  induction env with
  | nil => simp [envSet, envGet]
  | cons p env ih =>
    rcases p with ⟨k', v'⟩
    by_cases h : k' = k
    · simp [envSet, envGet, h]
    · simp [envSet, envGet, h, ih]

/-- Writing one key leaves reads of any other key unchanged. -/
theorem envGet_envSet_ne (k k' v : String) (env : List (String × String))
    (h : k' ≠ k) : envGet k (envSet k' v env) = envGet k env := by
  induction env with
  | nil => simp [envSet, envGet, h]
  | cons p env ih =>
    rcases p with ⟨k'', v''⟩
    by_cases h2 : k'' = k'
    · simp [envSet, envGet, h2, h]
    · by_cases h3 : k'' = k
      · simp [envSet, envGet, h2, h3, h.symm]
      · simp [envSet, envGet, h2, h3, ih]

/-- `SetupEnvVars` never touches the cluster-spec snapshot. -/
theorem setupEnvVars_spec_eq (r : Reconciler) (dc : VSphereDatacenterConfig)
    (w : PassState) : ((setupEnvVars r dc w).2).spec = w.spec := by
  cases hg : r.getSecretResult credentialsSecretKey with
  | error e => simp [setupEnvVars, vsphereCredentials, hg, logCall]
  | ok s =>
    cases hu : r.setenvResult EksavSphereUsernameKey (s.field "username") with
    | some e => simp [setupEnvVars, vsphereCredentials, setenvOp, hg, hu, logCall]
    | none =>
      cases hp : r.setenvResult EksavSpherePasswordKey (s.field "password") with
      | some e => simp [setupEnvVars, vsphereCredentials, setenvOp, hg, hu, hp, logCall]
      | none =>
        cases hv : r.vsphereSetupResult dc with
        | some e => simp [setupEnvVars, vsphereCredentials, setenvOp, hg, hu, hp, hv, logCall]
        | none => simp [setupEnvVars, vsphereCredentials, setenvOp, hg, hu, hp, hv, logCall]

/-- `SetupEnvVars` when the credentials secret cannot be fetched: wrapped
error, only the secret fetch was attempted. -/
theorem setupEnvVars_secret_error (r : Reconciler) (dc : VSphereDatacenterConfig)
    (w : PassState) (e : GoError)
    (hg : r.getSecretResult credentialsSecretKey = .error e) :
    setupEnvVars r dc w =
      (some ⟨"failed getting vsphere credentials secret: " ++ e.message⟩,
       logCall w (.getSecret credentialsSecretKey)) := by
  simp [setupEnvVars, vsphereCredentials, hg]

/-- `SetupEnvVars` when setting the username env var fails: wrapped error and
no later step runs. -/
theorem setupEnvVars_username_error (r : Reconciler) (dc : VSphereDatacenterConfig)
    (w : PassState) (s : Secret) (e : GoError)
    (hg : r.getSecretResult credentialsSecretKey = .ok s)
    (hu : r.setenvResult EksavSphereUsernameKey (s.field "username") = some e) :
    setupEnvVars r dc w =
      (some ⟨"failed setting env " ++ EksavSphereUsernameKey ++ ": " ++ e.message⟩,
       logCall (logCall w (.getSecret credentialsSecretKey))
         (.setenv EksavSphereUsernameKey (s.field "username"))) := by
  simp [setupEnvVars, vsphereCredentials, setenvOp, hg, hu, logCall]

/-- `SetupEnvVars` when setting the password env var fails: wrapped error,
with the username binding already in the environment. -/
theorem setupEnvVars_password_error (r : Reconciler) (dc : VSphereDatacenterConfig)
    (w : PassState) (s : Secret) (e : GoError)
    (hg : r.getSecretResult credentialsSecretKey = .ok s)
    (hu : r.setenvResult EksavSphereUsernameKey (s.field "username") = none)
    (hp : r.setenvResult EksavSpherePasswordKey (s.field "password") = some e) :
    setupEnvVars r dc w =
      (some ⟨"failed setting env " ++ EksavSpherePasswordKey ++ ": " ++ e.message⟩,
       { w with
          env := envSet EksavSphereUsernameKey (s.field "username") w.env,
          calls := w.calls ++
            [ExtCall.getSecret credentialsSecretKey,
             ExtCall.setenv EksavSphereUsernameKey (s.field "username"),
             ExtCall.setenv EksavSpherePasswordKey (s.field "password")] }) := by
  simp [setupEnvVars, vsphereCredentials, setenvOp, hg, hu, hp, logCall]

/-- `SetupEnvVars` on the happy path: both credential fields land in the
process environment and all four external steps are logged in order. -/
theorem setupEnvVars_ok (r : Reconciler) (dc : VSphereDatacenterConfig)
    (w : PassState) (s : Secret)
    (hg : r.getSecretResult credentialsSecretKey = .ok s)
    (hu : r.setenvResult EksavSphereUsernameKey (s.field "username") = none)
    (hp : r.setenvResult EksavSpherePasswordKey (s.field "password") = none)
    (hv : r.vsphereSetupResult dc = none) :
    setupEnvVars r dc w =
      (none,
       { w with
          env := envSet EksavSpherePasswordKey (s.field "password")
                   (envSet EksavSphereUsernameKey (s.field "username") w.env),
          calls := w.calls ++
            [ExtCall.getSecret credentialsSecretKey,
             ExtCall.setenv EksavSphereUsernameKey (s.field "username"),
             ExtCall.setenv EksavSpherePasswordKey (s.field "password"),
             ExtCall.vsphereSetup] }) := by
  simp [setupEnvVars, vsphereCredentials, setenvOp, hg, hu, hp, hv, logCall]

/-- C3: in the ReconcileCNI phase, a failed client resolution through the
remote client registry returns that error unchanged with the cluster spec
(hence its status) untouched; a successful resolution returns exactly the
Result/error pair of the external CNI reconciler invoked with the resolved
client and the spec; and when resolution fails, a pass running the CNI phase
followed by any later phases (the workers phase among them) stops right after
the resolution attempt, never invoking them and leaving the spec as it was. -/
theorem reconcileCNI_propagates :
    (∀ (r : Reconciler) (w : PassState) (e : GoError),
      r.getClientResult (capiClusterObjectKey w.spec.cluster) = .error e →
      reconcileCNI r w =
        ((Result.zero, some e),
         logCall w (.getClient (capiClusterObjectKey w.spec.cluster))) ∧
      ((reconcileCNI r w).2).spec = w.spec) ∧
    (∀ (r : Reconciler) (w : PassState) (cl : Client),
      r.getClientResult (capiClusterObjectKey w.spec.cluster) = .ok cl →
      (reconcileCNI r w).1 = r.cniResult cl w.spec) ∧
    (∀ (r : Reconciler) (w : PassState) (e : GoError) (qs : List NamedPhase),
      r.getClientResult (capiClusterObjectKey w.spec.cluster) = .error e →
      runPhases (⟨"ReconcileCNI", reconcileCNI r⟩ :: qs) w =
        ⟨Result.zero, some e,
         logCall w (.getClient (capiClusterObjectKey w.spec.cluster)),
         ["ReconcileCNI"]⟩) := by
  refine ⟨?_, ?_, ?_⟩
  · intro r w e h
    refine ⟨by simp [reconcileCNI, h], ?_⟩
    simp [reconcileCNI, h, logCall]
  · intro r w cl h
    simp [reconcileCNI, h]
  · intro r w e qs h
    have hrun : reconcileCNI r w =
        ((Result.zero, some e),
         logCall w (.getClient (capiClusterObjectKey w.spec.cluster))) := by
      simp [reconcileCNI, h]
    simp [runPhases, hrun]

/-- C3 witness: with a registry that cannot reach the workload cluster, the
CNI phase followed by the workers phase stops at the resolution attempt. -/
theorem reconcileCNI_propagates_witness :
    runPhases
      (⟨"ReconcileCNI", reconcileCNI cniFailReconciler⟩ ::
        [⟨"ReconcileWorkers", reconcileWorkers cniFailReconciler⟩])
      (w0 validDCSpec) =
      ⟨Result.zero, some ⟨"unreachable"⟩,
       logCall (w0 validDCSpec)
         (.getClient (capiClusterObjectKey (w0 validDCSpec).spec.cluster)),
       ["ReconcileCNI"]⟩ :=
  reconcileCNI_propagates.2.2 cniFailReconciler (w0 validDCSpec) ⟨"unreachable"⟩
    [⟨"ReconcileWorkers", reconcileWorkers cniFailReconciler⟩] rfl

/-- C4: when the live machine-config validator fails, the phase records the
validator's message on the cluster status and returns that non-nil error, so
the pass aborts with the status updated. -/
theorem validateMachineConfigs_hard_stop (r : Reconciler) (w w₁ : PassState) (e : GoError)
    (hsetup : setupEnvVars r w.spec.vsphereDatacenter w = (none, w₁))
    (hval : r.validatorResult w₁.spec = some e) :
    validateMachineConfigs r w =
      ((Result.zero, some e),
       { logCall w₁ .validateCall with spec := setFailureMessage w₁.spec (some e.message) }) := by
  simp [validateMachineConfigs, hsetup, logCall, hval]

/-- C4 witness: a concrete failing validator makes the phase return the error
"bad machine config" and write that message onto the cluster status. -/
theorem validateMachineConfigs_hard_stop_witness :
    validateMachineConfigs valFailReconciler (w0 validDCSpec) =
      ((Result.zero, some ⟨"bad machine config"⟩),
       { logCall valSetupState .validateCall with
          spec := setFailureMessage valSetupState.spec (some "bad machine config") }) :=
  validateMachineConfigs_hard_stop valFailReconciler (w0 validDCSpec) valSetupState
    ⟨"bad machine config"⟩ (by decide) (by decide)

/-- C10: when establishing ambient credentials fails inside
ValidateMachineConfigs, the phase returns that error with the whole cluster
spec (status failure message included) unchanged; and whenever the validator
does not fail, the phase leaves the cluster spec unchanged as well — the spec
is only mutated on a validator failure. -/
theorem validateMachineConfigs_setup_failure_frame (r : Reconciler) (w : PassState) :
    (∀ (e : GoError) (w₁ : PassState),
      setupEnvVars r w.spec.vsphereDatacenter w = (some e, w₁) →
      validateMachineConfigs r w = ((Result.zero, some e), w₁) ∧ w₁.spec = w.spec) ∧
    (r.validatorResult w.spec = none →
      ((validateMachineConfigs r w).2).spec = w.spec) := by
  constructor
  · intro e w₁ h
    refine ⟨by simp [validateMachineConfigs, h], ?_⟩
    have hs := setupEnvVars_spec_eq r w.spec.vsphereDatacenter w
    rw [h] at hs
    exact hs
  · intro hv
    rcases hs : setupEnvVars r w.spec.vsphereDatacenter w with ⟨oe, w₁⟩
    have hspec : w₁.spec = w.spec := by
      have h2 := setupEnvVars_spec_eq r w.spec.vsphereDatacenter w
      rw [hs] at h2
      exact h2
    cases oe with
    | some e => simp [validateMachineConfigs, hs, hspec]
    | none => simp [validateMachineConfigs, hs, logCall, hspec, hv]

/-- C10 witness: a concrete provider-level env-setup failure makes the phase
return the wrapped error with the cluster spec unchanged. -/
theorem validateMachineConfigs_setup_failure_frame_witness :
    validateMachineConfigs envFailReconciler (w0 validDCSpec) =
      ((Result.zero, some ⟨"failed setting env vars: " ++ "setup failed"⟩),
       (setupEnvVars envFailReconciler (w0 validDCSpec).spec.vsphereDatacenter
         (w0 validDCSpec)).2) ∧
    ((setupEnvVars envFailReconciler (w0 validDCSpec).spec.vsphereDatacenter
       (w0 validDCSpec)).2).spec = (w0 validDCSpec).spec :=
  (validateMachineConfigs_setup_failure_frame envFailReconciler (w0 validDCSpec)).1
    ⟨"failed setting env vars: " ++ "setup failed"⟩
    ((setupEnvVars envFailReconciler (w0 validDCSpec).spec.vsphereDatacenter
      (w0 validDCSpec)).2)
    (by decide)

/-- C8: the credential flow of ValidateMachineConfigs.  (1) Credential setup
always starts by fetching the secret under the fixed key (`eksa-system`,
`CredentialsObjectName`).  (2) On the happy path the secret's `username` and
`password` fields are copied into the process environment under the fixed
env-var keys, and the live validation call is logged only after the whole
setup.  (3) If the secret fetch fails, the phase returns an error and the
validation call is never made.  (4)/(5) If setting either environment
variable fails, the phase returns an error and the validation call is never
made. -/
theorem validateMachineConfigs_credentials_flow :
    (∀ (r : Reconciler) (dc : VSphereDatacenterConfig) (w : PassState),
      ∃ rest, ((setupEnvVars r dc w).2).calls =
        w.calls ++ ExtCall.getSecret credentialsSecretKey :: rest) ∧
    (∀ (r : Reconciler) (w : PassState) (s : Secret),
      r.getSecretResult credentialsSecretKey = .ok s →
      r.setenvResult EksavSphereUsernameKey (s.field "username") = none →
      r.setenvResult EksavSpherePasswordKey (s.field "password") = none →
      r.vsphereSetupResult w.spec.vsphereDatacenter = none →
      envGet EksavSphereUsernameKey ((setupEnvVars r w.spec.vsphereDatacenter w).2).env =
        some (s.field "username") ∧
      envGet EksavSpherePasswordKey ((setupEnvVars r w.spec.vsphereDatacenter w).2).env =
        some (s.field "password") ∧
      ((validateMachineConfigs r w).2).calls =
        ((setupEnvVars r w.spec.vsphereDatacenter w).2).calls ++ [ExtCall.validateCall]) ∧
    (∀ (r : Reconciler) (w : PassState) (e : GoError),
      r.getSecretResult credentialsSecretKey = .error e →
      validateMachineConfigs r w =
        ((Result.zero, some ⟨"failed getting vsphere credentials secret: " ++ e.message⟩),
         logCall w (.getSecret credentialsSecretKey))) ∧
    (∀ (r : Reconciler) (w : PassState) (s : Secret) (e : GoError),
      r.getSecretResult credentialsSecretKey = .ok s →
      r.setenvResult EksavSphereUsernameKey (s.field "username") = some e →
      validateMachineConfigs r w =
        ((Result.zero, some ⟨"failed setting env " ++ EksavSphereUsernameKey ++ ": " ++ e.message⟩),
         logCall (logCall w (.getSecret credentialsSecretKey))
           (.setenv EksavSphereUsernameKey (s.field "username")))) ∧
    (∀ (r : Reconciler) (w : PassState) (s : Secret) (e : GoError),
      r.getSecretResult credentialsSecretKey = .ok s →
      r.setenvResult EksavSphereUsernameKey (s.field "username") = none →
      r.setenvResult EksavSpherePasswordKey (s.field "password") = some e →
      validateMachineConfigs r w =
        ((Result.zero, some ⟨"failed setting env " ++ EksavSpherePasswordKey ++ ": " ++ e.message⟩),
         { w with
            env := envSet EksavSphereUsernameKey (s.field "username") w.env,
            calls := w.calls ++
              [ExtCall.getSecret credentialsSecretKey,
               ExtCall.setenv EksavSphereUsernameKey (s.field "username"),
               ExtCall.setenv EksavSpherePasswordKey (s.field "password")] })) := by
  refine ⟨?_, ?_, ?_, ?_, ?_⟩
  · intro r dc w
    cases hg : r.getSecretResult credentialsSecretKey with
    | error e =>
      exact ⟨[], by simp [setupEnvVars_secret_error r dc w e hg, logCall]⟩
    | ok s =>
      cases hu : r.setenvResult EksavSphereUsernameKey (s.field "username") with
      | some e =>
        exact ⟨[.setenv EksavSphereUsernameKey (s.field "username")],
          by simp [setupEnvVars_username_error r dc w s e hg hu, logCall]⟩
      | none =>
        cases hp : r.setenvResult EksavSpherePasswordKey (s.field "password") with
        | some e =>
          exact ⟨[.setenv EksavSphereUsernameKey (s.field "username"),
                  .setenv EksavSpherePasswordKey (s.field "password")],
            by simp [setupEnvVars_password_error r dc w s e hg hu hp]⟩
        | none =>
          cases hv : r.vsphereSetupResult dc with
          | some e =>
            refine ⟨[.setenv EksavSphereUsernameKey (s.field "username"),
                     .setenv EksavSpherePasswordKey (s.field "password"),
                     .vsphereSetup], ?_⟩
            simp [setupEnvVars, vsphereCredentials, setenvOp, hg, hu, hp, hv, logCall]
          | none =>
            exact ⟨[.setenv EksavSphereUsernameKey (s.field "username"),
                    .setenv EksavSpherePasswordKey (s.field "password"),
                    .vsphereSetup],
              by simp [setupEnvVars_ok r dc w s hg hu hp hv]⟩
  · intro r w s hg hu hp hv
    have hok := setupEnvVars_ok r w.spec.vsphereDatacenter w s hg hu hp hv
    have hne : EksavSpherePasswordKey ≠ EksavSphereUsernameKey := by decide
    refine ⟨?_, ?_, ?_⟩
    · simp [hok, envGet_envSet_ne _ _ _ _ hne, envGet_envSet_self]
    · simp [hok, envGet_envSet_self]
    · cases hval : r.validatorResult w.spec with
      | some e => simp [validateMachineConfigs, hok, logCall, setFailureMessage, hval]
      | none => simp [validateMachineConfigs, hok, logCall, hval]
  · intro r w e hg
    simp [validateMachineConfigs, setupEnvVars_secret_error r w.spec.vsphereDatacenter w e hg]
  · intro r w s e hg hu
    simp [validateMachineConfigs,
      setupEnvVars_username_error r w.spec.vsphereDatacenter w s e hg hu]
  · intro r w s e hg hu hp
    simp [validateMachineConfigs,
      setupEnvVars_password_error r w.spec.vsphereDatacenter w s e hg hu hp]

/-- C8 witness: a concrete failing secret fetch makes the phase return the
wrapped error with only the secret fetch logged — no validation call. -/
theorem validateMachineConfigs_credentials_flow_witness :
    validateMachineConfigs secretFailReconciler (w0 validDCSpec) =
      ((Result.zero, some ⟨"failed getting vsphere credentials secret: " ++ "no secret"⟩),
       logCall (w0 validDCSpec) (.getSecret credentialsSecretKey)) :=
  validateMachineConfigs_credentials_flow.2.2.1 secretFailReconciler (w0 validDCSpec)
    ⟨"no secret"⟩ rfl

/-- Looking up the key of a just-inserted object finds that object. -/
theorem storeLookup_insert_self (o : KubeObject) (st : Store) :
    storeLookup (storeInsert o st) o.key = some o := by
  induction st with
  | nil => simp [storeInsert, storeLookup]
  | cons p st ih =>
    rcases p with ⟨k, o'⟩
    by_cases h : k = o.key
    · simp [storeInsert, storeLookup, h]
    · simp [storeInsert, storeLookup, h, ih]

/-- Inserting one object leaves lookups of any other key unchanged. -/
theorem storeLookup_insert_ne (o : KubeObject) (st : Store) (k : String)
    (h : k ≠ o.key) : storeLookup (storeInsert o st) k = storeLookup st k := by
  induction st with
  | nil => simp [storeInsert, storeLookup, Ne.symm h]
  | cons p st ih =>
    rcases p with ⟨k', o'⟩
    by_cases h2 : k' = o.key
    · simp [storeInsert, storeLookup, h2, Ne.symm h]
    · by_cases h3 : k' = k
      · simp [storeInsert, storeLookup, h2, h3, h]
      · simp [storeInsert, storeLookup, h2, h3, ih]

/-- Every create-or-update attempt logs the attempt for its object first. -/
theorem createOrUpdate_calls (r : Reconciler) (o : KubeObject) (w : PassState) :
    ∃ l, ((createOrUpdate r o w).2).calls = w.calls ++ ExtCall.applyAttempt o.key :: l := by
  by_cases h : storeLookup w.store o.key = some o
  · exact ⟨[], by simp [createOrUpdate, logCall, h]⟩
  · cases hw : r.writeFails o with
    | some e => exact ⟨[.storeWrite o.key], by simp [createOrUpdate, logCall, h, hw]⟩
    | none => exact ⟨[.storeWrite o.key], by simp [createOrUpdate, logCall, h, hw]⟩

/-- A create-or-update attempt either leaves the store untouched or lands the
desired object in it. -/
theorem createOrUpdate_store_cases (r : Reconciler) (o : KubeObject) (w : PassState) :
    ((createOrUpdate r o w).2).store = w.store ∨
    ((createOrUpdate r o w).2).store = storeInsert o w.store := by
  by_cases h : storeLookup w.store o.key = some o
  · left; simp [createOrUpdate, logCall, h]
  · cases hw : r.writeFails o with
    | some e => left; simp [createOrUpdate, logCall, h, hw]
    | none => right; simp [createOrUpdate, logCall, h, hw]

/-- A create-or-update attempt of one object never disturbs other keys. -/
theorem createOrUpdate_lookup_other (r : Reconciler) (o : KubeObject) (w : PassState)
    (k : String) (hk : k ≠ o.key) :
    storeLookup ((createOrUpdate r o w).2).store k = storeLookup w.store k := by
  rcases createOrUpdate_store_cases r o w with h | h <;> rw [h]
  exact storeLookup_insert_ne o w.store k hk

/-- A create-or-update attempt that did not fail leaves the desired object
under its key. -/
theorem createOrUpdate_none_lookup (r : Reconciler) (o : KubeObject) (w : PassState)
    (h : (createOrUpdate r o w).1 = none) :
    storeLookup ((createOrUpdate r o w).2).store o.key = some o := by
  by_cases hl : storeLookup w.store o.key = some o
  · simp [createOrUpdate, logCall, hl]
  · cases hw : r.writeFails o with
    | some e => simp [createOrUpdate, logCall, hl, hw] at h
    | none => simp [createOrUpdate, logCall, hl, hw, storeLookup_insert_self]

/-- The applier only appends to the call log. -/
theorem applyAll_calls_extends (r : Reconciler) (objs : List KubeObject) (w : PassState) :
    ∃ l, ((applyAll r objs w).2).calls = w.calls ++ l := by
  induction objs generalizing w with
  | nil => exact ⟨[], by simp [applyAll]⟩
  | cons o os ih =>
    obtain ⟨l₁, h₁⟩ := createOrUpdate_calls r o w
    rcases hc : createOrUpdate r o w with ⟨oe, w₁⟩
    rw [hc] at h₁
    have h₁' : w₁.calls = w.calls ++ ExtCall.applyAttempt o.key :: l₁ := h₁
    obtain ⟨l₂, h₂⟩ := ih w₁
    cases oe with
    | some e =>
      exact ⟨(ExtCall.applyAttempt o.key :: l₁) ++ l₂, by simp [applyAll, hc, h₂, h₁']⟩
    | none =>
      exact ⟨(ExtCall.applyAttempt o.key :: l₁) ++ l₂, by simp [applyAll, hc, h₂, h₁']⟩

/-- Every object of the desired set is attempted, regardless of other
objects' failures. -/
theorem applyAll_attempts_mem (r : Reconciler) (objs : List KubeObject) (w : PassState)
    (o : KubeObject) (ho : o ∈ objs) :
    ExtCall.applyAttempt o.key ∈ ((applyAll r objs w).2).calls := by
  induction objs generalizing w with
  | nil => cases ho
  | cons o' os ih =>
    rcases hc : createOrUpdate r o' w with ⟨oe, w₁⟩
    have hfinal : ((applyAll r (o' :: os) w).2) = ((applyAll r os w₁).2) := by
      cases oe <;> simp [applyAll, hc]
    rw [hfinal]
    rcases List.mem_cons.mp ho with h | h
    · subst h
      obtain ⟨l₁, h₁⟩ := createOrUpdate_calls r o w
      rw [hc] at h₁
      obtain ⟨l₂, h₂⟩ := applyAll_calls_extends r os w₁
      rw [h₂, h₁]
      simp
    · exact ih w₁ h

/-- Keys outside the applied set keep their store contents. -/
theorem applyAll_lookup_other (r : Reconciler) (objs : List KubeObject) (w : PassState)
    (k : String) (hk : k ∉ objs.map KubeObject.key) :
    storeLookup ((applyAll r objs w).2).store k = storeLookup w.store k := by
  induction objs generalizing w with
  | nil => simp [applyAll]
  | cons o os ih =>
    simp only [List.map_cons, List.mem_cons, not_or] at hk
    rcases hc : createOrUpdate r o w with ⟨oe, w₁⟩
    have hw₁ : storeLookup w₁.store k = storeLookup w.store k := by
      have := createOrUpdate_lookup_other r o w k hk.1
      rw [hc] at this
      exact this
    have hfinal : ((applyAll r (o :: os) w).2) = ((applyAll r os w₁).2) := by
      cases oe <;> simp [applyAll, hc]
    rw [hfinal, ih w₁ hk.2, hw₁]

/-- After a fully successful apply of a duplicate-free desired set, every
desired object sits in the store under its key. -/
theorem applyAll_success_lookup (r : Reconciler) (objs : List KubeObject) (w : PassState)
    (hnodup : (objs.map KubeObject.key).Nodup)
    (hok : (applyAll r objs w).1 = []) :
    ∀ o ∈ objs, storeLookup ((applyAll r objs w).2).store o.key = some o := by
  induction objs generalizing w with
  | nil => intro o ho; cases ho
  | cons o' os ih =>
    rcases hc : createOrUpdate r o' w with ⟨oe, w₁⟩
    cases oe with
    | some e => simp [applyAll, hc] at hok
    | none =>
      have hfst : (applyAll r (o' :: os) w).1 = (applyAll r os w₁).1 := by
        simp [applyAll, hc]
      have hsnd : (applyAll r (o' :: os) w).2 = (applyAll r os w₁).2 := by
        simp [applyAll, hc]
      rw [hfst] at hok
      simp only [List.map_cons, List.nodup_cons] at hnodup
      intro o ho
      rw [hsnd]
      rcases List.mem_cons.mp ho with h | h
      · subst h
        have h1 : storeLookup w₁.store o.key = some o := by
          have h2 := createOrUpdate_none_lookup r o w (by rw [hc])
          rw [hc] at h2
          exact h2
        rw [applyAll_lookup_other r os w₁ o.key hnodup.1, h1]
      · exact ih w₁ hnodup.2 hok o h

/-- A write-count split over an appended log. -/
theorem writeCount_append (l₁ l₂ : List ExtCall) :
    writeCount (l₁ ++ l₂) = writeCount l₁ + writeCount l₂ := by
  simp [writeCount, List.filter_append]

/-- Applying a desired set whose every object is already stored unchanged is
a no-op: no failures, no store change, no store writes. -/
theorem applyAll_noop (r : Reconciler) (objs : List KubeObject) (w : PassState)
    (hall : ∀ o ∈ objs, storeLookup w.store o.key = some o) :
    (applyAll r objs w).1 = [] ∧
    ((applyAll r objs w).2).store = w.store ∧
    writeCount ((applyAll r objs w).2).calls = writeCount w.calls := by
  induction objs generalizing w with
  | nil => simp [applyAll]
  | cons o os ih =>
    have ho := hall o (List.mem_cons_self o os)
    have hc : createOrUpdate r o w = (none, logCall w (.applyAttempt o.key)) := by
      simp [createOrUpdate, logCall, ho]
    have hall' : ∀ o' ∈ os,
        storeLookup (logCall w (.applyAttempt o.key)).store o'.key = some o' := by
      intro o' ho'
      simpa [logCall] using hall o' (List.mem_cons_of_mem o ho')
    obtain ⟨h1, h2, h3⟩ := ih (logCall w (.applyAttempt o.key)) hall'
    refine ⟨by simp [applyAll, hc, h1], ?_, ?_⟩
    · simpa [applyAll, hc, logCall] using h2
    · have h4 : writeCount (logCall w (.applyAttempt o.key)).calls = writeCount w.calls := by
        simp [logCall, writeCount_append, writeCount, ExtCall.isStoreWrite]
      have h5 : writeCount ((applyAll r os (logCall w (.applyAttempt o.key))).2).calls =
          writeCount w.calls := by rw [h3, h4]
      simpa [applyAll, hc] using h5

/-- C5: the applier attempts every object of the producer's desired set
regardless of individual failures; the returned error is nil exactly when no
attempt failed and otherwise is the single error aggregating the collected
failures, produced only after all attempts; concretely, for desired objects
A, B, C where applying B fails, C is still attempted and the returned error
aggregates exactly B's failure, whose message it contains. -/
theorem apply_attempts_all_and_aggregates :
    (∀ (r : Reconciler) (objs : List KubeObject) (w : PassState) (o : KubeObject),
      o ∈ objs → ExtCall.applyAttempt o.key ∈ ((applyAll r objs w).2).calls) ∧
    (∀ (r : Reconciler) (objs : List KubeObject) (w : PassState),
      (applyProducer r (.ok objs) w).1.2 =
        (if (applyAll r objs (logCall w .producerCall)).1 = [] then none
         else some (aggregateApplyError (applyAll r objs (logCall w .producerCall)).1))) ∧
    ((applyProducer abcReconciler (.ok [objA, objB, objC]) (w0 validDCSpec)).1.2 =
        some (aggregateApplyError [errB]) ∧
      ExtCall.applyAttempt objC.key ∈
        ((applyProducer abcReconciler (.ok [objA, objB, objC]) (w0 validDCSpec)).2).calls ∧
      (aggregateApplyError [errB]).message = "applying objects: " ++ errB.message) := by
  refine ⟨?_, ?_, by decide, by decide, by decide⟩
  · intro r objs w o ho
    exact applyAll_attempts_mem r objs w o ho
  · intro r objs w
    by_cases h : (applyAll r objs (logCall w .producerCall)).1 = [] <;>
      simp [applyProducer, h]

/-- C5 witness: in the concrete A, B, C scenario with B failing, the attempt
of C is in the call log. -/
theorem apply_attempts_all_and_aggregates_witness :
    ExtCall.applyAttempt objC.key ∈
      ((applyAll abcReconciler [objA, objB, objC] (w0 validDCSpec)).2).calls :=
  apply_attempts_all_and_aggregates.1 abcReconciler [objA, objB, objC] (w0 validDCSpec)
    objC (by decide)

/-- C6: applying an unchanged producer twice is idempotent — when the first
Apply succeeds on a duplicate-free desired set, the second Apply over the
same set issues zero additional store writes. -/
theorem apply_second_run_no_writes (r : Reconciler) (objs : List KubeObject) (w : PassState)
    (hnodup : (objs.map KubeObject.key).Nodup)
    (h1 : (applyProducer r (.ok objs) w).1.2 = none) :
    writeCount (((applyProducer r (.ok objs)
        ((applyProducer r (.ok objs) w).2)).2).calls) =
      writeCount (((applyProducer r (.ok objs) w).2).calls) := by
  by_cases hout : (applyAll r objs (logCall w .producerCall)).1 = []
  case neg => simp [applyProducer, hout] at h1
  case pos =>
    have hsnd : (applyProducer r (.ok objs) w).2 =
        (applyAll r objs (logCall w .producerCall)).2 := by
      simp [applyProducer, hout]
    have hlk := applyAll_success_lookup r objs (logCall w .producerCall) hnodup hout
    have hlk' : ∀ o ∈ objs,
        storeLookup (logCall (applyAll r objs (logCall w .producerCall)).2
          .producerCall).store o.key = some o := by
      intro o ho
      simpa [logCall] using hlk o ho
    obtain ⟨g1, g2, g3⟩ :=
      applyAll_noop r objs
        (logCall (applyAll r objs (logCall w .producerCall)).2 .producerCall) hlk'
    rw [hsnd]
    have g4 : writeCount (logCall (applyAll r objs (logCall w .producerCall)).2
        .producerCall).calls =
        writeCount ((applyAll r objs (logCall w .producerCall)).2).calls := by
      simp [logCall, writeCount_append, writeCount, ExtCall.isStoreWrite]
    simp [applyProducer, g1, g3, g4]

/-- C6 witness: a concrete successful apply of one object followed by a
re-apply of the same producer adds no store writes. -/
theorem apply_second_run_no_writes_witness :
    writeCount (((applyProducer okReconciler (.ok [objA])
        ((applyProducer okReconciler (.ok [objA]) (w0 validDCSpec)).2)).2).calls) =
      writeCount (((applyProducer okReconciler (.ok [objA]) (w0 validDCSpec)).2).calls) :=
  apply_second_run_no_writes okReconciler [objA] (w0 validDCSpec) (by decide) (by decide)

/-- C7: when spec building fails, Reconcile returns a zero Result with that
error and no phase runs; when it succeeds, the registered phase list is
exactly the five phases in the fixed order, and every pass invokes a prefix
of exactly those names in registration order. -/
theorem reconcile_fixed_phase_sequence :
    (∀ (r : Reconciler) (e : GoError) (env : List (String × String)) (st : Store),
      reconcile r (.error e) env st = .buildFailed e ∧
      (reconcile r (.error e) env st).returned = (Result.zero, some e) ∧
      (reconcile r (.error e) env st).trace = []) ∧
    (∀ r : Reconciler, (phases r).map NamedPhase.name = fiveNames) ∧
    (∀ (r : Reconciler) (b : Except GoError CSpec) (env : List (String × String)) (st : Store),
      ∃ n, (reconcile r b env st).trace = fiveNames.take n) := by
  refine ⟨fun r e env st => ⟨rfl, rfl, rfl⟩, fun r => rfl, ?_⟩
  intro r b env st
  cases b with
  | error e => exact ⟨0, rfl⟩
  | ok cs => exact runPhases_trace_take (phases r) ⟨cs, env, st, []⟩

end EksaVSphere
